import Mathlib

/-!
Shallow embedding of `backend/utils/progress_tracker.py` (class `ProgressTracker`)
from the Eternal-Voice repository.

Modelling conventions:
- Python `float` values are modelled as exact rationals (`Rat`); every arithmetic
  operation the tracker performs (clamping, division by 100, multiplication by
  `total_items`, truncation by `int(...)`) is exact on the inputs the claims use.
- `datetime.now()` is modelled by an explicit integer timestamp parameter `now`
  (seconds); `total_seconds()` of a difference is the integer difference, and the
  `/ 60.0` of the sweep is exact rational division.
- The Python `dict` is modelled as an association list preserving insertion
  order, with Python's semantics: assignment to an existing key replaces the
  value in place, assignment to a fresh key appends.
- `threading.Lock` is non-reentrant.  Each method is a function from a tracker
  state (task map plus a `lockHeld` flag) to `Option` of a result: `none` means
  the method blocks forever trying to acquire a lock that is already held (in a
  single-thread execution this is non-termination), `some` is normal return.
- Python `int(x)` truncates toward zero: `pyInt`.
- Python truthiness of an `Optional[int]` / `Optional[str]` argument is modelled
  by `truthyOptInt` / `truthyStr` (`None`, `0` and `""` are falsy).
- For multiplication, subtraction and division of rationals the development uses
  `ratMul` / `ratSub` / `ratDiv`, which are proved equal to `ℚ`'s `*`, `-`, `/`
  (`ratMul_eq`, `ratSub_eq`, `ratDiv_eq`); they are spelled out through `mkRat` /
  `Rat.divInt` so that concrete runs of the tracker reduce inside the kernel.
-/

/-- Exact multiplication of rationals (equal to `*` on `ℚ`, see `ratMul_eq`). -/
def ratMul (a b : Rat) : Rat := mkRat (a.num * b.num) (a.den * b.den)

/-- Exact subtraction of rationals (equal to `-` on `ℚ`, see `ratSub_eq`). -/
def ratSub (a b : Rat) : Rat :=
  mkRat (a.num * (b.den : Int) - b.num * (a.den : Int)) (a.den * b.den)

/-- Exact division of rationals (equal to `/` on `ℚ`, see `ratDiv_eq`). -/
def ratDiv (a b : Rat) : Rat := Rat.divInt (a.num * (b.den : Int)) ((a.den : Int) * b.num)

/-- The numerator of `a : ℚ`, cast back to `ℚ`, is `a` times its denominator. -/
theorem num_eq_mul_den (a : Rat) : (a.num : ℚ) = a * (a.den : ℚ) :=
  (div_eq_iff (by positivity)).mp (Rat.num_div_den a)

/-- `ratMul` is multiplication on `ℚ`. -/
theorem ratMul_eq (a b : Rat) : ratMul a b = a * b := by
  rw [ratMul, Rat.mkRat_eq_div]
  push_cast
  have ha : ((a.den : ℚ)) ≠ 0 := by positivity
  have hb : ((b.den : ℚ)) ≠ 0 := by positivity
  field_simp
  rw [num_eq_mul_den, num_eq_mul_den]
  ring

/-- `ratSub` is subtraction on `ℚ`. -/
theorem ratSub_eq (a b : Rat) : ratSub a b = a - b := by
  rw [ratSub, Rat.mkRat_eq_div]
  push_cast
  have ha : ((a.den : ℚ)) ≠ 0 := by positivity
  have hb : ((b.den : ℚ)) ≠ 0 := by positivity
  field_simp
  rw [num_eq_mul_den, num_eq_mul_den]
  ring

/-- `ratDiv` is division on `ℚ` (with the `x / 0 = 0` convention on both sides). -/
theorem ratDiv_eq (a b : Rat) : ratDiv a b = a / b := by
  rw [ratDiv, Rat.divInt_eq_div]
  push_cast
  by_cases hb0 : b = 0
  · subst hb0
    simp
  · have ha : ((a.den : ℚ)) ≠ 0 := by positivity
    have hd : ((b.den : ℚ)) ≠ 0 := by positivity
    have hn : ((b.num : ℚ)) ≠ 0 := by
      simpa using (Rat.num_ne_zero).mpr hb0
    field_simp
    rw [num_eq_mul_den, num_eq_mul_den]
    ring

namespace ProgressTracker

/-- One task record, the value stored in `self.tasks[task_id]`
(`create_task`, lines 20-33 of `progress_tracker.py`). -/
structure Task where
  task_id : String
  profile_id : Int
  task_type : String
  total_items : Int
  completed_items : Int
  progress : Rat
  current_step : String
  message : String
  start_time : Int
  last_update : Int
  status : String
  estimated_time : Option Rat
deriving DecidableEq, Repr

/-- The task map `self.tasks`: an insertion-ordered association list. -/
abbrev Tasks := List (String × Task)

/-- `self.tasks.get(task_id)` / `task_id in self.tasks` combined:
first (and only, keys being unique) entry for `id`. -/
def lookupTask (ts : Tasks) (id : String) : Option Task :=
  (ts.find? (fun p => p.1 == id)).map (fun p => p.2)

/-- `self.tasks[task_id] = t`: replace in place if the key exists, append otherwise
(Python dict assignment semantics). -/
def setTask (ts : Tasks) (id : String) (t : Task) : Tasks :=
  if ts.any (fun p => p.1 == id) then
    ts.map (fun p => if p.1 == id then (id, t) else p)
  else
    ts ++ [(id, t)]

/-- Tracker state: the map plus whether `self.lock` is currently held. -/
structure TrackerState where
  tasks : Tasks
  lockHeld : Bool
deriving DecidableEq, Repr

/-- `ProgressTracker.__init__`: empty map, lock free. -/
def initTracker : TrackerState := { tasks := [], lockHeld := false }

/-- Python `int(q)` on a rational: truncation toward zero
(see `pyInt_eq_floor` and `pyInt_eq_ceil`). -/
def pyInt (q : Rat) : Int :=
  if q < 0 then -(Int.fdiv (-q).num ((-q).den : Int)) else Int.fdiv q.num (q.den : Int)

/-- On nonnegative rationals `pyInt` is the floor. -/
theorem pyInt_eq_floor (q : Rat) (h : 0 ≤ q) : pyInt q = ⌊q⌋ := by
  rw [pyInt, if_neg (not_lt.mpr h), Rat.floor_def,
    Int.fdiv_eq_ediv _ (Int.natCast_nonneg q.den)]

/-- On negative rationals `pyInt` is the ceiling (truncation toward zero). -/
theorem pyInt_eq_ceil (q : Rat) (h : q < 0) : pyInt q = ⌈q⌉ := by
  have hpos : (0 : Rat) ≤ -q := by linarith
  rw [pyInt, if_pos h]
  have hfloor : Int.fdiv (-q).num (((-q).den : Int)) = ⌊(-q : ℚ)⌋ := by
    rw [Rat.floor_def, Int.fdiv_eq_ediv _ (Int.natCast_nonneg (-q).den)]
  rw [hfloor, Int.floor_neg, neg_neg]

/-- Python truthiness of an `Optional[int]`: `None` and `0` are falsy. -/
def truthyOptInt : Option Int → Bool
  | none => false
  | some p => p != 0

/-- Python truthiness of an `Optional[str]`: `None` and `""` are falsy. -/
def truthyStr : Option String → Bool
  | none => false
  | some m => m != ""

/-- Membership test of a pattern inside a string, used for the
`'upload' in message.lower()` checks (a nonempty pattern occurs in `s`
iff `splitOn` cuts `s` into more than one piece). -/
def containsSub (s pat : String) : Bool := (s.splitOn pat).length > 1

/-- `ProgressTracker._extract_step_from_message` (lines 128-143). -/
def extract_step_from_message (message : String) : String :=
  let m := message.toLower
  if containsSub m "upload" then "Uploading"
  else if containsSub m "process" then "Processing"
  else if containsSub m "transcri" then "Transcribing"
  else if containsSub m "analyz" then "Analyzing"
  else if containsSub m "generat" then "Generating"
  else "Processing"

/-- Body of `update_progress` (lines 41-57), the part executed under the lock:
the effect on the task map.  Note line 44 computes `completed_items` from the
RAW argument `progress`, not from the clamped value stored on line 43. -/
def update_progress_body (ts : Tasks) (task_id : String) (progress : Rat)
    (message : Option String) (now : Int) : Tasks :=
  match lookupTask ts task_id with
  | none => ts
  | some task0 =>
    let task1 := { task0 with
      progress := min (100 : Rat) (max (0 : Rat) progress),
      completed_items := pyInt (ratMul (ratDiv progress 100) (task0.total_items : Rat)) }
    let task2 :=
      if truthyStr message then
        { task1 with
          message := message.getD "",
          current_step := extract_step_from_message (message.getD "") }
      else task1
    let task3 := { task2 with last_update := now }
    let task4 :=
      if progress > 0 then
        let elapsed : Rat := ((now - task3.start_time : Int) : Rat)
        let estimated_total : Rat := ratDiv elapsed (ratDiv progress 100)
        let remaining : Rat := ratSub estimated_total elapsed
        { task3 with estimated_time := some (max (0 : Rat) remaining) }
      else task3
    setTask ts task_id task4

/-- `ProgressTracker.create_task` (lines 15-34).  Returns the new state
(the Python method returns `task_id`, i.e. its own argument). -/
def create_task (s : TrackerState) (task_id : String) (total_items : Int)
    (profile_id : Int) (task_type : String) (now : Int) : Option TrackerState :=
  if s.lockHeld then none
  else
    let t : Task := {
      task_id := task_id
      profile_id := profile_id
      task_type := task_type
      total_items := total_items
      completed_items := 0
      progress := 0
      current_step := "Initializing..."
      message := "Starting task..."
      start_time := now
      last_update := now
      status := "running"
      estimated_time := none }
    some { tasks := setTask s.tasks task_id t, lockHeld := false }

/-- `ProgressTracker.update_progress` (lines 36-57): acquire the lock
(block forever if already held), run the body, release. -/
def update_progress (s : TrackerState) (task_id : String) (progress : Rat)
    (message : Option String) (now : Int) : Option TrackerState :=
  if s.lockHeld then none
  else some { tasks := update_progress_body s.tasks task_id progress message now,
              lockHeld := false }

/-- `ProgressTracker.increment_progress` (lines 59-68): acquires `self.lock`,
and for a known `task_id` calls `self.update_progress` — which tries to acquire
the same non-reentrant lock again, so that inner call blocks forever (`none`). -/
def increment_progress (s : TrackerState) (task_id : String)
    (message : Option String) (now : Int) : Option TrackerState :=
  if s.lockHeld then none
  else
    let s1 : TrackerState := { s with lockHeld := true }
    match lookupTask s1.tasks task_id with
    | none => some { s1 with lockHeld := false }
    | some task =>
      let completed : Int := task.completed_items + 1
      let progress : Rat := ratMul (ratDiv (completed : Rat) (task.total_items : Rat)) 100
      (update_progress s1 task_id progress message now).map
        (fun s2 => { s2 with lockHeld := false })

/-- `ProgressTracker.complete_task` (lines 70-81). -/
def complete_task (s : TrackerState) (task_id : String) (message : String)
    (now : Int) : Option TrackerState :=
  if s.lockHeld then none
  else
    match lookupTask s.tasks task_id with
    | none => some { s with lockHeld := false }
    | some task =>
      some { tasks := setTask s.tasks task_id { task with
               progress := 100
               completed_items := task.total_items
               message := message
               status := "completed"
               last_update := now },
             lockHeld := false }

/-- `ProgressTracker.fail_task` (lines 83-92). -/
def fail_task (s : TrackerState) (task_id : String) (error_message : String)
    (now : Int) : Option TrackerState :=
  if s.lockHeld then none
  else
    match lookupTask s.tasks task_id with
    | none => some { s with lockHeld := false }
    | some task =>
      some { tasks := setTask s.tasks task_id { task with
               message := "Failed: " ++ error_message
               status := "failed"
               last_update := now },
             lockHeld := false }

/-- `ProgressTracker.get_progress` (lines 94-99): `self.tasks.get(task_id)`. -/
def get_progress (s : TrackerState) (task_id : String) : Option (Option Task) :=
  if s.lockHeld then none
  else some (lookupTask s.tasks task_id)

/-- `ProgressTracker.get_all_tasks` (lines 101-109).  Note the Python guard is
`if profile_id:`, i.e. truthiness — `None` and `0` both take the unfiltered
branch. -/
def get_all_tasks (s : TrackerState) (profile_id : Option Int) : Option Tasks :=
  if s.lockHeld then none
  else
    if truthyOptInt profile_id then
      some (s.tasks.filter (fun p => (some p.2.profile_id) == profile_id))
    else some s.tasks

/-- The sweep condition of `cleanup_old_tasks` (lines 120-122): the record is
terminal and `age = (now - last_update).total_seconds() / 60.0` exceeds
`max_age_minutes` strictly. -/
def sweepPred (max_age_minutes now : Int) : String × Task → Bool := fun p =>
  (p.2.status == "completed" || p.2.status == "failed") &&
  decide (ratDiv (((now - p.2.last_update : Int)) : Rat) 60 > (max_age_minutes : Rat))

/-- `ProgressTracker.cleanup_old_tasks` (lines 111-126): collect the ids of
terminal records strictly older than `max_age_minutes`, then delete them. -/
def cleanup_old_tasks (s : TrackerState) (max_age_minutes : Int) (now : Int) :
    Option TrackerState :=
  if s.lockHeld then none
  else
    let tasks_to_remove : List String :=
      (s.tasks.filter (sweepPred max_age_minutes now)).map (fun p => p.1)
    some { tasks := s.tasks.filter (fun p => !(tasks_to_remove.contains p.1)),
           lockHeld := false }

/-! ### Helper lemmas about the task map -/

/-- Replacing the value at a present key makes `find?` return the new entry. -/
theorem find?_map_replace (ts : Tasks) (id : String) (t : Task)
    (h : ts.any (fun p => p.1 == id) = true) :
    (ts.map (fun p => if p.1 == id then (id, t) else p)).find? (fun p => p.1 == id) =
      some (id, t) := by
  induction ts with
  | nil => simp at h
  | cons hd tl ih =>
    cases hhd : hd.1 == id with
    | true =>
      simp only [List.map_cons, if_pos hhd]
      exact List.find?_cons_of_pos _ (by simp)
    | false =>
      have hne : ¬ ((hd.1 == id) = true) := by simp [hhd]
      have htl : tl.any (fun p => p.1 == id) = true := by
        simpa [List.any_cons, hhd] using h
      simp only [List.map_cons, if_neg hne]
      rw [List.find?_cons_of_neg (p := fun q : String × Task => q.1 == id) _ hne]
      exact ih htl

/-- Appending a fresh entry makes `find?` return it when the key was absent. -/
theorem find?_append_new (ts : Tasks) (id : String) (t : Task)
    (h : ts.any (fun p => p.1 == id) = false) :
    (ts ++ [(id, t)]).find? (fun p => p.1 == id) = some (id, t) := by
  induction ts with
  | nil => simp [List.find?_cons]
  | cons hd tl ih =>
    simp only [List.any_cons, Bool.or_eq_false_iff] at h
    simp only [List.cons_append, List.find?_cons, h.1]
    exact ih h.2

/-- Looking up the key just written by `setTask` yields the written record. -/
theorem lookupTask_setTask (ts : Tasks) (id : String) (t : Task) :
    lookupTask (setTask ts id t) id = some t := by
  rw [lookupTask, setTask]
  by_cases hany : ts.any (fun p => p.1 == id) = true
  · rw [if_pos hany, find?_map_replace ts id t hany]
    rfl
  · rw [if_neg hany, find?_append_new ts id t (Bool.eq_false_iff.mpr hany)]
    rfl

/-- In a map with no duplicate keys, two entries with the same key are equal. -/
theorem keys_nodup_eq_of_mem (ts : Tasks) (hn : (ts.map Prod.fst).Nodup)
    {p q : String × Task} (hp : p ∈ ts) (hq : q ∈ ts) (hpq : p.1 = q.1) : p = q := by
  induction ts with
  | nil => cases hp
  | cons hd tl ih =>
    rw [List.map_cons, List.nodup_cons] at hn
    obtain ⟨hnotin, hn2⟩ := hn
    cases List.mem_cons.mp hp with
    | inl hp2 =>
      cases List.mem_cons.mp hq with
      | inl hq2 => rw [hp2, hq2]
      | inr hq2 =>
        exact absurd (List.mem_map.mpr ⟨q, hq2, (hp2 ▸ hpq).symm⟩) hnotin
    | inr hp2 =>
      cases List.mem_cons.mp hq with
      | inl hq2 =>
        exact absurd (List.mem_map.mpr ⟨p, hp2, hq2 ▸ hpq⟩) hnotin
      | inr hq2 => exact ih hn2 hp2 hq2

/-- For a map with no duplicate keys, the key of a stored entry appears among
the keys of the filtered map exactly when the entry satisfies the filter. -/
theorem mem_filtered_keys_iff (pred : String × Task → Bool) (ts : Tasks)
    (id : String) (t : Task) (hn : (ts.map Prod.fst).Nodup) (hmem : (id, t) ∈ ts) :
    id ∈ (ts.filter pred).map Prod.fst ↔ pred (id, t) = true := by
  constructor
  · intro hid
    obtain ⟨p, hp, hp1⟩ := List.mem_map.mp hid
    obtain ⟨hpts, hppred⟩ := List.mem_filter.mp hp
    have hpe : p = (id, t) := keys_nodup_eq_of_mem ts hn hpts hmem hp1
    rwa [hpe] at hppred
  · intro hpred
    exact List.mem_map.mpr ⟨(id, t), List.mem_filter.mpr ⟨hmem, hpred⟩, rfl⟩

/-- The sweep age test with `max_age_minutes = 0`: a record is "old" exactly
when its `last_update` is strictly before `now`. -/
theorem age_pos_iff (d : Int) : (ratDiv ((d : Int) : Rat) 60 > ((0 : Int) : Rat)) ↔ 0 < d := by
  rw [ratDiv_eq, Int.cast_zero, gt_iff_lt, lt_div_iff₀ (by norm_num : (0 : ℚ) < 60)]
  simp

/-! ### Sample records used by concrete runs and witnesses -/

/-- The record `create_task "t1" 4 7 "file_upload"` inserts at time `0`. -/
def freshT1 : Task where
  task_id := "t1"
  profile_id := 7
  task_type := "file_upload"
  total_items := 4
  completed_items := 0
  progress := 0
  current_step := "Initializing..."
  message := "Starting task..."
  start_time := 0
  last_update := 0
  status := "running"
  estimated_time := none

/-- A running task in the middle of its work, used as a generic witness state. -/
def runningT1 : Task where
  task_id := "t1"
  profile_id := 7
  task_type := "file_upload"
  total_items := 4
  completed_items := 2
  progress := 50
  current_step := "Processing"
  message := "processing items"
  start_time := 0
  last_update := 3
  status := "running"
  estimated_time := none

/-- A completed task whose `last_update` is `5`, used for the sweep claims. -/
def doneT1 : Task := { runningT1 with status := "completed", last_update := 5 }

/-! ### Claim theorems -/

/-- Claim C1 (code_bug evidence): running `create_task("t1", 4, 7, "file_upload")`
and then `update_progress("t1", 150)` stores `progress = 100` (the clamp works)
but `completed_items = 6`, computed from the UNCLAMPED input on line 44 of
`progress_tracker.py`; the claimed value `floor(stored_progress/100 * total_items)`
is `4 ≠ 6`. -/
theorem update_progress_unclamped_completed_items :
    ∃ t2 : Task,
      ((create_task initTracker "t1" 4 7 "file_upload" 0).bind
        (fun s1 => update_progress s1 "t1" 150 none 0)).map
        (fun s2 => lookupTask s2.tasks "t1") = some (some t2) ∧
      t2.progress = 100 ∧ t2.total_items = 4 ∧ t2.completed_items = 6 ∧
      ⌊(t2.progress / 100) * (t2.total_items : ℚ)⌋ ≠ t2.completed_items := by
  refine ⟨{ freshT1 with completed_items := 6, progress := 100, estimated_time := some 0 },
    by decide, by decide, by decide, by decide, ?_⟩
  norm_num [freshT1]

/-- Claim C2 (code_bug evidence): in the spec's example scenario the very first
`increment_progress("t1")` after `create_task("t1", 4, 7, "file_upload")`
self-deadlocks: it holds `self.lock` and calls `update_progress`, which tries to
acquire the same non-reentrant lock, so the call never returns (`none`) and the
scenario's claimed values are never produced. -/
theorem example_scenario_first_increment_deadlocks :
    (create_task initTracker "t1" 4 7 "file_upload" 0).bind
      (fun s1 => increment_progress s1 "t1" none 0) = none := by decide

/-- Claim C3: for every state whose map contains `task_id`, `increment_progress`
never returns: it acquires the registry's single non-reentrant lock and then
calls `update_progress`, which blocks forever re-acquiring it (modelled as
`none`); consequently no post-state exists and the stored record is unchanged. -/
theorem increment_progress_known_id_never_returns (s : TrackerState) (id : String)
    (msg : Option String) (now : Int) (t : Task)
    (h : lookupTask s.tasks id = some t) :
    increment_progress s id msg now = none := by
  rw [increment_progress]
  by_cases hl : s.lockHeld = true
  · rw [if_pos hl]
  · rw [if_neg hl]
    simp [h, update_progress]

/-- Witness for C3 at a concrete state. -/
theorem increment_progress_known_id_never_returns_witness :
    lookupTask [("t1", runningT1)] "t1" = some runningT1 ∧
    increment_progress { tasks := [("t1", runningT1)], lockHeld := false } "t1" none 9 = none :=
  ⟨by decide,
   increment_progress_known_id_never_returns
     { tasks := [("t1", runningT1)], lockHeld := false } "t1" none 9 runningT1 (by decide)⟩

/-- Claim C4 (code_bug evidence): the state reached from the empty registry by
`create_task("t1", 4, 7, "file_upload")` followed by `update_progress("t1", -50)`
stores `completed_items = -2`, violating the claimed invariant
`0 ≤ completed_items ≤ total_items` (line 44 of `progress_tracker.py` uses the
unclamped input). -/
theorem reachable_state_violates_completed_items_bounds :
    ∃ t2 : Task,
      ((create_task initTracker "t1" 4 7 "file_upload" 0).bind
        (fun s1 => update_progress s1 "t1" (-50) none 0)).map
        (fun s2 => lookupTask s2.tasks "t1") = some (some t2) ∧
      ¬(0 ≤ t2.completed_items ∧ t2.completed_items ≤ t2.total_items) := by
  exact ⟨{ freshT1 with completed_items := -2 }, by decide, by decide⟩

/-- Claim C5: for every map containing `task_id`, `complete_task` stores a record
with `status = "completed"`, `progress = 100`, and `completed_items` equal to the
record's (unchanged) `total_items`, regardless of the prior progress value. -/
theorem complete_task_forces_terminal_record (ts : Tasks) (id : String)
    (msg : String) (now : Int) (t : Task) (h : lookupTask ts id = some t) :
    ∃ s2 : TrackerState, complete_task { tasks := ts, lockHeld := false } id msg now = some s2 ∧
      ∃ t2 : Task, lookupTask s2.tasks id = some t2 ∧
        t2.status = "completed" ∧ t2.progress = 100 ∧
        t2.completed_items = t2.total_items ∧ t2.total_items = t.total_items := by
  rw [complete_task]
  simp only [if_neg (by simp : ¬(false = true)), h]
  exact ⟨_, rfl, _, lookupTask_setTask ts id _, rfl, rfl, rfl, rfl⟩

/-- Witness for C5 at a concrete state. -/
theorem complete_task_forces_terminal_record_witness :
    lookupTask [("t1", runningT1)] "t1" = some runningT1 ∧
    (∃ s2 : TrackerState,
      complete_task { tasks := [("t1", runningT1)], lockHeld := false } "t1" "done" 9 = some s2 ∧
      ∃ t2 : Task, lookupTask s2.tasks "t1" = some t2 ∧
        t2.status = "completed" ∧ t2.progress = 100 ∧
        t2.completed_items = t2.total_items ∧ t2.total_items = runningT1.total_items) :=
  ⟨by decide,
   complete_task_forces_terminal_record [("t1", runningT1)] "t1" "done" 9 runningT1 (by decide)⟩

/-- Claim C6: for every map containing `task_id`, `fail_task` stores a record
with `status = "failed"` and message `"Failed: " ++ error_message`, while
`progress`, `completed_items`, `total_items`, `start_time`, `profile_id` and
`task_type` keep their previous values. -/
theorem fail_task_sets_status_and_preserves_progress (ts : Tasks) (id err : String)
    (now : Int) (t : Task) (h : lookupTask ts id = some t) :
    ∃ s2 : TrackerState, fail_task { tasks := ts, lockHeld := false } id err now = some s2 ∧
      ∃ t2 : Task, lookupTask s2.tasks id = some t2 ∧
        t2.status = "failed" ∧ t2.message = "Failed: " ++ err ∧
        t2.progress = t.progress ∧ t2.completed_items = t.completed_items ∧
        t2.total_items = t.total_items ∧ t2.start_time = t.start_time ∧
        t2.profile_id = t.profile_id ∧ t2.task_type = t.task_type := by
  rw [fail_task]
  simp only [if_neg (by simp : ¬(false = true)), h]
  exact ⟨_, rfl, _, lookupTask_setTask ts id _, rfl, rfl, rfl, rfl, rfl, rfl, rfl, rfl⟩

/-- Witness for C6 at a concrete state. -/
theorem fail_task_sets_status_and_preserves_progress_witness :
    lookupTask [("t1", runningT1)] "t1" = some runningT1 ∧
    (∃ s2 : TrackerState,
      fail_task { tasks := [("t1", runningT1)], lockHeld := false } "t1" "boom" 9 = some s2 ∧
      ∃ t2 : Task, lookupTask s2.tasks "t1" = some t2 ∧
        t2.status = "failed" ∧ t2.message = "Failed: " ++ "boom" ∧
        t2.progress = runningT1.progress ∧ t2.completed_items = runningT1.completed_items ∧
        t2.total_items = runningT1.total_items ∧ t2.start_time = runningT1.start_time ∧
        t2.profile_id = runningT1.profile_id ∧ t2.task_type = runningT1.task_type) :=
  ⟨by decide,
   fail_task_sets_status_and_preserves_progress [("t1", runningT1)] "t1" "boom" 9 runningT1
     (by decide)⟩

/-- Claim C7: for a `task_id` absent from the map, every mutation
(`update_progress`, `increment_progress`, `complete_task`, `fail_task`) returns
normally (no deadlock, no exception) with the state unchanged, and
`get_progress` returns the absence value `None`. -/
theorem unknown_task_id_operations_noop (ts : Tasks) (id : String) (prog : Rat)
    (msg : Option String) (cmsg err : String) (now : Int)
    (h : lookupTask ts id = none) :
    update_progress { tasks := ts, lockHeld := false } id prog msg now =
      some { tasks := ts, lockHeld := false } ∧
    increment_progress { tasks := ts, lockHeld := false } id msg now =
      some { tasks := ts, lockHeld := false } ∧
    complete_task { tasks := ts, lockHeld := false } id cmsg now =
      some { tasks := ts, lockHeld := false } ∧
    fail_task { tasks := ts, lockHeld := false } id err now =
      some { tasks := ts, lockHeld := false } ∧
    get_progress { tasks := ts, lockHeld := false } id = some none := by
  refine ⟨?_, ?_, ?_, ?_, ?_⟩ <;>
    simp [update_progress, update_progress_body, increment_progress, complete_task,
      fail_task, get_progress, h]

/-- Witness for C7 at a concrete state. -/
theorem unknown_task_id_operations_noop_witness :
    lookupTask [("t1", runningT1)] "zz" = none ∧
    (update_progress { tasks := [("t1", runningT1)], lockHeld := false } "zz" 30 none 9 =
      some { tasks := [("t1", runningT1)], lockHeld := false } ∧
    increment_progress { tasks := [("t1", runningT1)], lockHeld := false } "zz" none 9 =
      some { tasks := [("t1", runningT1)], lockHeld := false } ∧
    complete_task { tasks := [("t1", runningT1)], lockHeld := false } "zz" "done" 9 =
      some { tasks := [("t1", runningT1)], lockHeld := false } ∧
    fail_task { tasks := [("t1", runningT1)], lockHeld := false } "zz" "boom" 9 =
      some { tasks := [("t1", runningT1)], lockHeld := false } ∧
    get_progress { tasks := [("t1", runningT1)], lockHeld := false } "zz" = some none) :=
  ⟨by decide,
   unknown_task_id_operations_noop [("t1", runningT1)] "zz" 30 none "done" "boom" 9 (by decide)⟩

/-- The sweep condition with `max_age_minutes = 0` holds exactly for terminal
records whose `last_update` is strictly before `now`. -/
theorem sweepPred_zero_iff (now : Int) (q : String × Task) :
    sweepPred 0 now q = true ↔
      ((q.2.status = "completed" ∨ q.2.status = "failed") ∧ q.2.last_update < now) := by
  simp only [sweepPred, Bool.and_eq_true, Bool.or_eq_true, beq_iff_eq, decide_eq_true_eq,
    age_pos_iff, Int.sub_pos]

/-- Counterexample to claim C8 as stated: a `completed` record whose
`last_update` equals the sweep time (age exactly `0`, not `> 0`) survives
`cleanup_old_tasks(max_age_minutes=0)`, although the claim requires every
terminal record to be removed regardless of its `last_update`. -/
theorem cleanup_zero_retains_fresh_terminal_record :
    (cleanup_old_tasks { tasks := [("t1", doneT1)], lockHeld := false } 0 5).map
      (fun s2 => lookupTask s2.tasks "t1") = some (some doneT1) ∧
    doneT1.status = "completed" ∧ doneT1.last_update = 5 := by decide

/-- Claim C8 as amended: after `cleanup_old_tasks(max_age_minutes=0)` at time
`now`, a record survives iff it was present and is NOT (terminal with
`last_update` strictly before `now`); in particular all `running` records
survive, and terminal records with `last_update ≥ now` also survive. -/
theorem cleanup_zero_removes_exactly_strictly_old_terminal (ts : Tasks) (now : Int)
    (id : String) (t : Task) (hn : (ts.map Prod.fst).Nodup) :
    ∃ s2 : TrackerState,
      cleanup_old_tasks { tasks := ts, lockHeld := false } 0 now = some s2 ∧
      ((id, t) ∈ s2.tasks ↔ (id, t) ∈ ts ∧
        ¬((t.status = "completed" ∨ t.status = "failed") ∧ t.last_update < now)) := by
  refine ⟨_, rfl, ?_⟩
  rw [List.mem_filter]
  constructor
  · rintro ⟨hmem, hb⟩
    refine ⟨hmem, fun hcond => ?_⟩
    have hkey : id ∈ (ts.filter (sweepPred 0 now)).map Prod.fst :=
      (mem_filtered_keys_iff (sweepPred 0 now) ts id t hn hmem).mpr
        ((sweepPred_zero_iff now (id, t)).mpr hcond)
    have hcont : ((ts.filter (sweepPred 0 now)).map (fun p => p.1)).contains id = true :=
      List.elem_iff.mpr hkey
    rw [show ((id, t).1 : String) = id from rfl, hcont] at hb
    simp at hb
  · rintro ⟨hmem, hcond⟩
    refine ⟨hmem, ?_⟩
    cases hc : ((ts.filter (sweepPred 0 now)).map (fun p => p.1)).contains id with
    | false => rfl
    | true =>
      exact absurd ((sweepPred_zero_iff now (id, t)).mp
        ((mem_filtered_keys_iff (sweepPred 0 now) ts id t hn hmem).mp
          (List.elem_iff.mp hc))) hcond

/-- Witness for C8 (amended) at a concrete state: a completed record strictly
older than the sweep time is removed. -/
theorem cleanup_zero_removes_exactly_strictly_old_terminal_witness :
    ([("t1", doneT1)].map Prod.fst).Nodup ∧
    (∃ s2 : TrackerState,
      cleanup_old_tasks { tasks := [("t1", doneT1)], lockHeld := false } 0 6 = some s2 ∧
      (("t1", doneT1) ∈ s2.tasks ↔ ("t1", doneT1) ∈ [("t1", doneT1)] ∧
        ¬((doneT1.status = "completed" ∨ doneT1.status = "failed") ∧
          doneT1.last_update < 6))) :=
  ⟨by decide,
   cleanup_zero_removes_exactly_strictly_old_terminal [("t1", doneT1)] 6 "t1" doneT1
     (by decide)⟩

/-- Counterexample to claim C9 as stated: `get_all_tasks(profile_id=0)` falls
into Python's falsy branch (`if profile_id:`) and returns every record,
including one whose `profile_id` is `7 ≠ 0`, instead of only records with
`profile_id == 0`. -/
theorem get_all_tasks_zero_profile_id_returns_all :
    get_all_tasks { tasks := [("t1", runningT1)], lockHeld := false } (some 0) =
      some [("t1", runningT1)] ∧ runningT1.profile_id ≠ 0 := by decide

/-- Claim C9 as amended: `get_all_tasks` with no `profile_id`, or with
`profile_id = 0` (falsy in Python), returns all records; for a nonzero
`profile_id` it returns exactly the records whose `profile_id` matches. -/
theorem get_all_tasks_filters_only_truthy_profile_id (ts : Tasks) (q : Int)
    (id : String) (t : Task) :
    get_all_tasks { tasks := ts, lockHeld := false } none = some ts ∧
    get_all_tasks { tasks := ts, lockHeld := false } (some 0) = some ts ∧
    ((id, t) ∈ (get_all_tasks { tasks := ts, lockHeld := false } (some q)).getD [] ↔
      (id, t) ∈ ts ∧ (q = 0 ∨ t.profile_id = q)) := by
  refine ⟨rfl, rfl, ?_⟩
  by_cases hq : q = 0
  · subst hq
    simp [get_all_tasks, truthyOptInt]
  · have htr : truthyOptInt (some q) = true := by simp [truthyOptInt, hq]
    simp [get_all_tasks, htr, List.mem_filter, hq]

/-- Claim C10: `create_task` inserts a record with `status = "running"`,
`progress = 0`, `completed_items = 0` and `current_step = "Initializing..."`,
and `get_progress` immediately returns that record. -/
theorem create_task_initial_record (ts : Tasks) (id : String) (total profile : Int)
    (ttype : String) (now : Int) (_h : 0 < total) :
    ∃ s2 : TrackerState,
      create_task { tasks := ts, lockHeld := false } id total profile ttype now = some s2 ∧
      ∃ t2 : Task, lookupTask s2.tasks id = some t2 ∧
        get_progress s2 id = some (some t2) ∧
        t2.status = "running" ∧ t2.progress = 0 ∧ t2.completed_items = 0 ∧
        t2.current_step = "Initializing..." := by
  refine ⟨_, rfl, _, lookupTask_setTask ts id _, ?_, rfl, rfl, rfl, rfl⟩
  rw [get_progress]
  simp [lookupTask_setTask]

/-- Witness for C10 at a concrete state. -/
theorem create_task_initial_record_witness :
    (0 : Int) < 4 ∧
    (∃ s2 : TrackerState,
      create_task { tasks := [], lockHeld := false } "t1" 4 7 "file_upload" 0 = some s2 ∧
      ∃ t2 : Task, lookupTask s2.tasks "t1" = some t2 ∧
        get_progress s2 "t1" = some (some t2) ∧
        t2.status = "running" ∧ t2.progress = 0 ∧ t2.completed_items = 0 ∧
        t2.current_step = "Initializing...") :=
  ⟨by decide, create_task_initial_record [] "t1" 4 7 "file_upload" 0 (by decide)⟩

end ProgressTracker
